import Mathlib

/-!
Shallow embedding of the monster-backend habit/battle/XP domain logic
(src/server.js, src/models/Habit.js, src/models/User.js).

The repository's server.js holds two route sets: the main server
(first half of the file) and a serverless deployment variant (second
half).  Definitions whose name ends in `Serverless` embed the second
variant; all others embed the main server.

Timestamps are modelled as integer milliseconds, matching JavaScript
Date arithmetic.  JavaScript truthiness of `x || d` on numbers is
modelled by `jsOr`.
-/

namespace Monster

/-- JavaScript `x || d` for numbers: `0` is falsy, everything else truthy. -/
def jsOr (x d : Int) : Int := if x = 0 then d else x

/-- JavaScript `x || d` for optional values (absent or falsy-empty gives the default). -/
def jsOrOpt (x : Option Int) (d : Int) : Int :=
  match x with
  | some v => jsOr v d
  | none => d

/-- `LEVEL_THRESHOLDS` table from server.js line 45. -/
def LEVEL_THRESHOLDS : List Int := [0, 100, 300, 600, 1000, 1500, 2100, 2800, 3600, 5000, 10000, 20000]

/-- The `for` loop of `calculateLevel`: walk the remaining thresholds,
    bumping the level while `xp` meets each one, stopping at the first miss. -/
def levelLoop (xp : Int) : List Int → Int → Int
  | [], level => level
  | t :: ts, level => if t ≤ xp then levelLoop xp ts (level + 1) else level

/-- `calculateLevel` from server.js lines 47-57: starts at level 1 and scans
    `LEVEL_THRESHOLDS[1..]` in order. -/
def calculateLevel (xp : Int) : Int := levelLoop xp LEVEL_THRESHOLDS.tail 1

/-- One entry of `Habit.xpGrantedDates` (src/models/Habit.js lines 30-36). -/
structure XpGrant where
  date : String
  grantedAt : Int
deriving Repr, DecidableEq

/-- The fields of the Habit document (src/models/Habit.js) that the
    lifecycle logic reads or writes. -/
structure Habit where
  userId : String
  name : String
  partnerId : Option String
  sharedGroupId : Option String
  type : String
  battleStatus : String
  isVisible : Bool
  battleDuration : Int
  completedDates : List String
  xpGrantedDates : List XpGrant
  currentStreak : Int
  battleWinner : Option String
deriving Repr, DecidableEq

/-- `User.hellWeek` sub-document (src/unnamed/part_000 lines 29-33). -/
structure HellWeek where
  isActive : Bool
  startDate : Option Int
  targetDate : Option Int
deriving Repr, DecidableEq

/-- One entry of `User.friendRequests` (src/unnamed/part_000 lines 48-52);
    `fromId` embeds the `from` reference. -/
structure FriendRequest where
  fromId : String
  status : String
deriving Repr, DecidableEq

/-- The fields of the User document that the domain logic reads or writes. -/
structure User where
  email : String
  platformXp : Int
  level : Int
  hellWeek : HellWeek
  friends : List String
  friendRequests : List FriendRequest
deriving Repr, DecidableEq

/-- Insert a date into a lexicographically sorted list (helper for `sortDates`). -/
def sortInsert (d : String) : List String → List String
  | [] => [d]
  | x :: xs => if d ≤ x then d :: x :: xs else x :: sortInsert d xs

/-- JavaScript `completedDates.sort()` on date strings: lexicographic sort. -/
def sortDates : List String → List String
  | [] => []
  | x :: xs => sortInsert x (sortDates xs)

/-- `UNDO_WINDOW_MS` from server.js line 192. -/
def UNDO_WINDOW_MS : Int := 60 * 1000

/-- Result of the toggle route body: the saved habit and the computed `xpChange`. -/
structure ToggleResult where
  habit : Habit
  xpChange : Int
deriving Repr, DecidableEq

/-- `POST /habits/:id/toggle` habit mutation (server.js lines 189-242, main
    variant): uncheck refunds 15 XP only when the grant is younger than the
    undo window (and then deletes the grant record); a late uncheck keeps the
    grant; a check pays 15 XP only when no grant record exists for the date. -/
def toggle (habit : Habit) (date : String) (now : Int) : ToggleResult :=
  if date ∈ habit.completedDates then
    match habit.xpGrantedDates.find? (fun e => e.date == date) with
    | some entry =>
      if now - entry.grantedAt < UNDO_WINDOW_MS then
        { habit := { habit with
            completedDates := sortDates (habit.completedDates.erase date),
            xpGrantedDates := habit.xpGrantedDates.filter (fun e => !(e.date == date)),
            currentStreak := ((sortDates (habit.completedDates.erase date)).length : Int) },
          xpChange := -15 }
      else
        { habit := { habit with
            completedDates := sortDates (habit.completedDates.erase date),
            currentStreak := ((sortDates (habit.completedDates.erase date)).length : Int) },
          xpChange := 0 }
    | none =>
      { habit := { habit with
          completedDates := sortDates (habit.completedDates.erase date),
          currentStreak := ((sortDates (habit.completedDates.erase date)).length : Int) },
        xpChange := 0 }
  else
    match habit.xpGrantedDates.find? (fun e => e.date == date) with
    | some _ =>
      { habit := { habit with
          completedDates := sortDates (habit.completedDates ++ [date]),
          currentStreak := ((sortDates (habit.completedDates ++ [date])).length : Int) },
        xpChange := 0 }
    | none =>
      { habit := { habit with
          completedDates := sortDates (habit.completedDates ++ [date]),
          xpGrantedDates := habit.xpGrantedDates ++ [{ date := date, grantedAt := now }],
          currentStreak := ((sortDates (habit.completedDates ++ [date])).length : Int) },
        xpChange := 15 }

/-- User update of the toggle route (server.js lines 245-256, main variant):
    only fires when `xpChange ≠ 0`; applies the Hell Week multiplier, floors
    XP at 0, and raises (never lowers) the level.  The second component is
    whether the user document was saved. -/
def applyToggleXp (user : User) (xpChange : Int) : User × Bool :=
  if xpChange ≠ 0 then
    let delta := if user.hellWeek.isActive then
        (if 0 < xpChange then xpChange + 20 else xpChange - 20)
      else xpChange
    let newXp := max 0 (jsOr user.platformXp 0 + delta)
    ({ user with platformXp := newXp,
                 level := max (jsOr user.level 1) (calculateLevel newXp) }, true)
  else
    (user, false)

/-- Level self-heal of `GET /user/:id` (server.js lines 654-660, main
    variant): only ever raises the stored level. -/
def getUserSelfHeal (user : User) : User :=
  let calculatedLevel := calculateLevel (jsOr user.platformXp 0)
  if jsOr user.level 1 < calculatedLevel then { user with level := calculatedLevel } else user

/-- Level sync of `GET /user/:id` in the serverless variant (server.js lines
    910-915): overwrites the stored level with the derived one whenever they
    differ, in either direction. -/
def getUserSelfHealServerless (user : User) : User :=
  let calculatedLevel := calculateLevel (jsOr user.platformXp 0)
  if user.level ≠ calculatedLevel then { user with level := calculatedLevel } else user

/-- Hell Week `start` action (server.js lines 273-283, main variant). -/
def hellWeekStart (user : User) (now : Int) : Except String User :=
  if user.hellWeek.isActive then .error "Already in hell"
  else if jsOr user.level 1 < 4 then .error "Hell Week requires Level 4"
  else .ok { user with hellWeek :=
    { isActive := true, startDate := some now,
      targetDate := some (now + 7 * 24 * 60 * 60 * 1000) } }

/-- Hell Week `start` action in the serverless variant (server.js lines
    880-888): no level precondition. -/
def hellWeekStartServerless (user : User) (now : Int) : Except String User :=
  if user.hellWeek.isActive then .error "Already in hell"
  else .ok { user with hellWeek :=
    { isActive := true, startDate := some now,
      targetDate := some (now + 7 * 24 * 60 * 60 * 1000) } }

/-- Hell Week `surrender` action (server.js lines 284-289, main variant). -/
def hellWeekSurrender (user : User) : User :=
  { user with hellWeek := { isActive := false, startDate := none, targetDate := none },
              platformXp := max 0 (user.platformXp - 700) }

/-- Hell Week `fail` action (server.js lines 290-295). -/
def hellWeekFail (user : User) : User :=
  { user with hellWeek := { isActive := false, startDate := none, targetDate := none },
              platformXp := max 0 (user.platformXp - 500) }

/-- Hell Week `complete` action (server.js lines 296-302). -/
def hellWeekComplete (user : User) : User :=
  let newXp := jsOr user.platformXp 0 + 1000
  { user with hellWeek := { isActive := false, startDate := none, targetDate := none },
              platformXp := newXp,
              level := max (jsOr user.level 1) (calculateLevel newXp) }

/-- XP penalty applied to the surrendering user in `POST /battles/surrender`
    (server.js lines 464-468). -/
def surrenderXpPenalty (user : User) : User :=
  { user with platformXp := max 0 (jsOr user.platformXp 0 - 100) }

/-- `POST /battles/surrender` (server.js lines 441-470): both linked habit
    records become `completed` with `battleWinner` set to the surrendering
    record's `partnerId`, and the surrendering user pays 100 XP. -/
def surrenderBattle (myHabit : Habit) (opponentHabit : Option Habit) (user : Option User) :
    Habit × Option Habit × Option User :=
  let my := { myHabit with battleStatus := "completed", battleWinner := myHabit.partnerId }
  let opp := opponentHabit.map fun o =>
    { o with battleStatus := "completed", battleWinner := myHabit.partnerId }
  (my, opp, user.map surrenderXpPenalty)

/-- `POST /social/add-friend` (server.js lines 515-536) after the sender and
    target have been resolved from id and friend code: self/duplicate checks,
    then append a pending request to the target's queue. -/
def addFriend (sender : User) (senderId : String) (target : User) (targetId : String) :
    Except String User :=
  if senderId = targetId then .error "You cannot add yourself."
  else if targetId ∈ sender.friends then .error "Already friends."
  else match target.friendRequests.find? (fun r => r.fromId == senderId) with
    | some _ => .error "Request already sent."
    | none => .ok { target with friendRequests :=
        target.friendRequests ++ [{ fromId := senderId, status := "pending" }] }

/-- `POST /social/handle-request` (server.js lines 540-563): removes the
    matching request and, on accept, adds the friendship edge on each side
    only if it is not already present. -/
def handleRequest (user : User) (userId : String) (requester : User) (requesterId : String)
    (action : String) : User × User :=
  let user1 := { user with friendRequests :=
    user.friendRequests.filter (fun r => !(r.fromId == requesterId)) }
  if action = "accept" then
    let user2 := if requesterId ∈ user1.friends then user1
      else { user1 with friends := user1.friends ++ [requesterId] }
    let requester2 := if userId ∈ requester.friends then requester
      else { requester with friends := requester.friends ++ [userId] }
    (user2, requester2)
  else
    (user1, requester)

/-- Input fields of a create-habit request that the battle logic reads. -/
structure HabitInput where
  userId : String
  name : String
deriving Repr, DecidableEq

/-- `POST /habits` (server.js lines 146-182, main variant): with a partner the
    creator record is created `waiting` and hidden, the invitee record
    `pending` and hidden, both sharing a freshly allocated group id; without a
    partner a single visible solo habit is created. -/
def createHabit (input : HabitInput) (partnerId : Option String) (battleDuration : Option Int)
    (freshGroupId : String) : List Habit :=
  let sharedGroupId : Option String := if partnerId.isSome then some freshGroupId else none
  let dur := jsOrOpt battleDuration 7
  let habit : Habit :=
    { userId := input.userId, name := input.name,
      partnerId := partnerId,
      sharedGroupId := sharedGroupId,
      type := if partnerId.isSome then "battle" else "solo",
      battleStatus := if partnerId.isSome then "waiting" else "active",
      isVisible := if partnerId.isSome then false else true,
      battleDuration := dur,
      completedDates := [], xpGrantedDates := [], currentStreak := 0, battleWinner := none }
  match partnerId with
  | some pid =>
    let partnerHabit : Habit :=
      { userId := pid, name := input.name,
        partnerId := some input.userId,
        sharedGroupId := sharedGroupId,
        type := "battle", battleStatus := "pending", isVisible := false,
        battleDuration := dur,
        completedDates := [], xpGrantedDates := [], currentStreak := 0, battleWinner := none }
    [habit, partnerHabit]
  | none => [habit]

/-- `POST /habits` in the serverless variant (server.js lines 769-806): same
    as the main variant except the creator record's `isVisible` is not set, so
    it keeps the schema default `true` (src/models/Habit.js line 72). -/
def createHabitServerless (input : HabitInput) (partnerId : Option String)
    (battleDuration : Option Int) (freshGroupId : String) : List Habit :=
  let sharedGroupId : Option String := if partnerId.isSome then some freshGroupId else none
  let dur := jsOrOpt battleDuration 7
  let habit : Habit :=
    { userId := input.userId, name := input.name,
      partnerId := partnerId,
      sharedGroupId := sharedGroupId,
      type := if partnerId.isSome then "battle" else "solo",
      battleStatus := if partnerId.isSome then "waiting" else "active",
      isVisible := true,
      battleDuration := dur,
      completedDates := [], xpGrantedDates := [], currentStreak := 0, battleWinner := none }
  match partnerId with
  | some pid =>
    let partnerHabit : Habit :=
      { userId := pid, name := input.name,
        partnerId := some input.userId,
        sharedGroupId := sharedGroupId,
        type := "battle", battleStatus := "pending", isVisible := false,
        battleDuration := dur,
        completedDates := [], xpGrantedDates := [], currentStreak := 0, battleWinner := none }
    [habit, partnerHabit]
  | none => [habit]

/-- Concrete fresh habit used to instantiate hypothesis-bearing theorems. -/
def exHabit : Habit :=
  { userId := "u1", name := "run", partnerId := none, sharedGroupId := none,
    type := "solo", battleStatus := "active", isVisible := true,
    battleDuration := 7, completedDates := [], xpGrantedDates := [],
    currentStreak := 0, battleWinner := none }

/-- Concrete habit whose date 2025-01-01 is completed with an old XP grant. -/
def exHabitGranted : Habit :=
  { exHabit with completedDates := ["2025-01-01"],
                 xpGrantedDates := [{ date := "2025-01-01", grantedAt := 0 }],
                 currentStreak := 1 }

/-- Concrete user used to instantiate hypothesis-bearing theorems. -/
def exUser : User :=
  { email := "a@b.c", platformXp := 30, level := 1,
    hellWeek := { isActive := false, startDate := none, targetDate := none },
    friends := [], friendRequests := [] }

/-- Concrete user at level 5 with 0 XP (e.g. level earned then penalized). -/
def exUserLvl5 : User := { exUser with level := 5, platformXp := 0 }

/-- Concrete user at level 1 with 0 XP. -/
def exUserLvl1 : User := { exUser with level := 1, platformXp := 0 }

/-- Concrete active battle record of the surrendering user. -/
def exBattleMine : Habit :=
  { exHabit with userId := "u1", partnerId := some "u2", sharedGroupId := some "g1",
                 type := "battle", battleStatus := "active" }

/-- Concrete active battle record of the opponent. -/
def exBattleTheirs : Habit :=
  { exHabit with userId := "u2", partnerId := some "u1", sharedGroupId := some "g1",
                 type := "battle", battleStatus := "active" }

end Monster

namespace Monster

/-- `a ≤ levelLoop xp l a`: the loop never lowers the accumulated level. -/
theorem levelLoop_le (xp : Int) (l : List Int) (a : Int) : a ≤ levelLoop xp l a := by
  induction l generalizing a with
  | nil => exact le_refl a
  | cons t ts ih =>
    by_cases h : t ≤ xp
    · calc a ≤ a + 1 := by omega
        _ ≤ levelLoop xp ts (a + 1) := ih (a + 1)
        _ = levelLoop xp (t :: ts) a := by simp [levelLoop, h]
    · simp [levelLoop, h]

/-- The loop is monotone in `xp`. -/
theorem levelLoop_mono {xp xp' : Int} (h : xp ≤ xp') (l : List Int) (a : Int) :
    levelLoop xp l a ≤ levelLoop xp' l a := by
  induction l generalizing a with
  | nil => exact le_refl a
  | cons t ts ih =>
    by_cases ht : t ≤ xp
    · have ht' : t ≤ xp' := le_trans ht h
      simpa [levelLoop, ht, ht'] using ih (a + 1)
    · have : levelLoop xp (t :: ts) a = a := by simp [levelLoop, ht]
      rw [this]
      exact levelLoop_le xp' (t :: ts) a

/-- `calculateLevel` is monotone in `xp`. -/
theorem calculateLevel_mono {xp xp' : Int} (h : xp ≤ xp') :
    calculateLevel xp ≤ calculateLevel xp' :=
  levelLoop_mono h LEVEL_THRESHOLDS.tail 1

/-- `calculateLevel` never returns less than 1. -/
theorem one_le_calculateLevel (xp : Int) : 1 ≤ calculateLevel xp :=
  levelLoop_le xp LEVEL_THRESHOLDS.tail 1

/-- C8: `calculateLevel` is monotonic non-decreasing over non-negative xp,
    and over the system's threshold table satisfies `calculateLevel 0 = 1`,
    `calculateLevel 100 = 2`, `calculateLevel 20000 = 12`, and
    `calculateLevel 19999 = 11`. -/
theorem calculate_level_props (xp xp' : Int) (h0 : 0 ≤ xp) (h : xp ≤ xp') :
    calculateLevel xp ≤ calculateLevel xp' ∧
    calculateLevel 0 = 1 ∧ calculateLevel 100 = 2 ∧
    calculateLevel 20000 = 12 ∧ calculateLevel 19999 = 11 :=
  ⟨calculateLevel_mono h, by decide, by decide, by decide, by decide⟩

/-- Witness for C8 at xp = 0, xp' = 150. -/
theorem calculate_level_props_w :
    calculateLevel 0 ≤ calculateLevel 150 ∧
    calculateLevel 0 = 1 ∧ calculateLevel 100 = 2 ∧
    calculateLevel 20000 = 12 ∧ calculateLevel 19999 = 11 :=
  calculate_level_props 0 150 (by decide) (by decide)

/-- `sortInsert` permutes cons. -/
theorem sortInsert_perm (d : String) (l : List String) :
    List.Perm (sortInsert d l) (d :: l) := by
  induction l with
  | nil => exact List.Perm.refl _
  | cons x xs ih =>
    by_cases h : d ≤ x
    · simp [sortInsert, h]
    · have e : sortInsert d (x :: xs) = x :: sortInsert d xs := by simp [sortInsert, h]
      rw [e]
      exact List.Perm.trans (ih.cons x) (List.Perm.swap d x xs)

/-- `sortDates` is a permutation of its input. -/
theorem sortDates_perm (l : List String) : List.Perm (sortDates l) l := by
  induction l with
  | nil => exact List.Perm.refl _
  | cons x xs ih =>
    exact List.Perm.trans (sortInsert_perm x (sortDates xs)) (ih.cons x)

/-- Membership is preserved by `sortDates`. -/
theorem mem_sortDates {d : String} {l : List String} : d ∈ sortDates l ↔ d ∈ l :=
  (sortDates_perm l).mem_iff

/-- Occurrence counts are preserved by `sortDates`. -/
theorem count_sortDates (d : String) (l : List String) :
    (sortDates l).count d = l.count d :=
  (sortDates_perm l).count_eq d

/-- `find?` skips a prefix in which nothing matches. -/
theorem find?_append_none {α : Type} {p : α → Bool} {l₁ : List α} (l₂ : List α)
    (h : l₁.find? p = none) : (l₁ ++ l₂).find? p = l₂.find? p := by
  induction l₁ with
  | nil => simp
  | cons a l ih =>
    have hpa : p a = false := by
      rcases hc : p a with _ | _
      · rfl
      · rw [List.find?_cons_of_pos _ hc] at h
        exact absurd h (by simp)
    rw [List.cons_append, List.find?_cons_of_neg _ (by simp [hpa])]
    rw [List.find?_cons_of_neg _ (by simp [hpa])] at h
    exact ih h

/-- Check branch of `toggle` for a date with no prior grant: pays 15 XP
    and records the grant (server.js lines 228-237). -/
theorem toggle_check_new {habit : Habit} {date : String} (now : Int)
    (h1 : date ∉ habit.completedDates)
    (h2 : habit.xpGrantedDates.find? (fun e => e.date == date) = none) :
    toggle habit date now =
      { habit := { habit with
          completedDates := sortDates (habit.completedDates ++ [date]),
          xpGrantedDates := habit.xpGrantedDates ++ [{ date := date, grantedAt := now }],
          currentStreak := ((sortDates (habit.completedDates ++ [date])).length : Int) },
        xpChange := 15 } := by
  unfold toggle
  rw [if_neg h1, h2]

/-- Check branch of `toggle` for a date whose grant record still exists:
    no XP is paid again (server.js lines 232-237). -/
theorem toggle_recheck_granted {habit : Habit} {date : String} {entry : XpGrant} (now : Int)
    (h1 : date ∉ habit.completedDates)
    (h2 : habit.xpGrantedDates.find? (fun e => e.date == date) = some entry) :
    toggle habit date now =
      { habit := { habit with
          completedDates := sortDates (habit.completedDates ++ [date]),
          currentStreak := ((sortDates (habit.completedDates ++ [date])).length : Int) },
        xpChange := 0 } := by
  unfold toggle
  rw [if_neg h1, h2]

/-- Uncheck branch of `toggle` inside the undo window: refunds 15 XP and
    deletes the grant record (server.js lines 209-225). -/
theorem toggle_uncheck_refund {habit : Habit} {date : String} {entry : XpGrant} {now : Int}
    (h1 : date ∈ habit.completedDates)
    (h2 : habit.xpGrantedDates.find? (fun e => e.date == date) = some entry)
    (h3 : now - entry.grantedAt < UNDO_WINDOW_MS) :
    toggle habit date now =
      { habit := { habit with
          completedDates := sortDates (habit.completedDates.erase date),
          xpGrantedDates := habit.xpGrantedDates.filter (fun e => !(e.date == date)),
          currentStreak := ((sortDates (habit.completedDates.erase date)).length : Int) },
        xpChange := -15 } := by
  unfold toggle
  rw [if_pos h1, h2]
  simp [h3]

/-- Uncheck branch of `toggle` outside the undo window: XP is kept and the
    grant record is retained (server.js lines 209-227). -/
theorem toggle_uncheck_late {habit : Habit} {date : String} {entry : XpGrant} {now : Int}
    (h1 : date ∈ habit.completedDates)
    (h2 : habit.xpGrantedDates.find? (fun e => e.date == date) = some entry)
    (h3 : ¬ (now - entry.grantedAt < UNDO_WINDOW_MS)) :
    toggle habit date now =
      { habit := { habit with
          completedDates := sortDates (habit.completedDates.erase date),
          currentStreak := ((sortDates (habit.completedDates.erase date)).length : Int) },
        xpChange := 0 } := by
  unfold toggle
  rw [if_pos h1, h2]
  simp [h3]

/-- `jsOr x 0` is the identity on integers. -/
theorem jsOr_zero (x : Int) : jsOr x 0 = x := by
  unfold jsOr
  split <;> omega

/-- `platformXp` after a non-zero toggle delta. -/
theorem applyToggleXp_platformXp (u : User) (d : Int) (hd : d ≠ 0) :
    (applyToggleXp u d).1.platformXp =
      max 0 (jsOr u.platformXp 0 +
        (if u.hellWeek.isActive then (if 0 < d then d + 20 else d - 20) else d)) := by
  simp [applyToggleXp, hd]

/-- `level` after a non-zero toggle delta: raise-only max against the derived level. -/
theorem applyToggleXp_level (u : User) (d : Int) (hd : d ≠ 0) :
    (applyToggleXp u d).1.level =
      max (jsOr u.level 1) (calculateLevel ((applyToggleXp u d).1.platformXp)) := by
  simp [applyToggleXp, hd]

/-- `applyToggleXp` never touches the Hell Week sub-state. -/
theorem applyToggleXp_hellWeek (u : User) (d : Int) :
    (applyToggleXp u d).1.hellWeek = u.hellWeek := by
  by_cases hd : d ≠ 0 <;> simp [applyToggleXp, hd]

/-- A +15 grant followed by a -15 refund leaves the XP balance unchanged,
    with or without the Hell Week multiplier. -/
theorem applyToggleXp_cancel (u : User) (hx : 0 ≤ u.platformXp) :
    (applyToggleXp (applyToggleXp u 15).1 (-15)).1.platformXp = u.platformXp := by
  rw [applyToggleXp_platformXp _ _ (by norm_num), applyToggleXp_hellWeek,
      applyToggleXp_platformXp _ _ (by norm_num), jsOr_zero, jsOr_zero]
  cases hhw : u.hellWeek.isActive <;> simp [hhw] <;> omega

/-- C3: for a habit and date never granted XP, toggling twice with the second
    toggle inside the 60-second undo window yields ledger deltas +15 then -15,
    leaves the date absent from `completedDates`, leaves no grant record for
    the date, and nets zero change to the user's `platformXp`. -/
theorem toggle_undo_within_window (habit : Habit) (date : String) (t1 t2 : Int) (u : User)
    (h1 : date ∉ habit.completedDates)
    (h2 : habit.xpGrantedDates.find? (fun e => e.date == date) = none)
    (h3 : t2 - t1 < UNDO_WINDOW_MS)
    (hx : 0 ≤ u.platformXp) :
    (toggle habit date t1).xpChange = 15 ∧
    (toggle (toggle habit date t1).habit date t2).xpChange = -15 ∧
    date ∉ (toggle (toggle habit date t1).habit date t2).habit.completedDates ∧
    (toggle (toggle habit date t1).habit date t2).habit.xpGrantedDates.find?
      (fun e => e.date == date) = none ∧
    (applyToggleXp (applyToggleXp u (toggle habit date t1).xpChange).1
      (toggle (toggle habit date t1).habit date t2).xpChange).1.platformXp = u.platformXp := by
  rw [toggle_check_new t1 h1 h2]
  have hmem : date ∈ sortDates (habit.completedDates ++ [date]) :=
    mem_sortDates.mpr (by simp)
  have hfind : ((habit.xpGrantedDates ++ [(⟨date, t1⟩ : XpGrant)]).find?
      (fun e => e.date == date)) = some (⟨date, t1⟩ : XpGrant) := by
    rw [find?_append_none _ h2]
    simp [List.find?]
  have e2 := @toggle_uncheck_refund
    { habit with
      completedDates := sortDates (habit.completedDates ++ [date]),
      xpGrantedDates := habit.xpGrantedDates ++ [(⟨date, t1⟩ : XpGrant)],
      currentStreak := ((sortDates (habit.completedDates ++ [date])).length : Int) }
    date (⟨date, t1⟩ : XpGrant) t2 hmem hfind (by simpa using h3)
  refine ⟨rfl, ?_, ?_, ?_, ?_⟩
  · simp only [e2]
  · simp only [e2]
    intro hc
    have hcount : ((sortDates (habit.completedDates ++ [date])).erase date).count date = 0 := by
      rw [List.count_erase_self, count_sortDates, List.count_append]
      have h0 : habit.completedDates.count date = 0 := List.count_eq_zero.mpr h1
      simp [h0]
    have hmem2 : date ∈ (sortDates (habit.completedDates ++ [date])).erase date :=
      mem_sortDates.mp hc
    rw [List.count_eq_zero] at hcount
    exact hcount hmem2
  · simp only [e2]
    refine List.find?_eq_none.mpr ?_
    intro x hx2
    have := (List.mem_filter.mp hx2).2
    simpa using this
  · simp only [e2]
    exact applyToggleXp_cancel u hx

/-- Witness for C3 on a fresh habit, grant at t=0, undo at t=1000ms. -/
theorem toggle_undo_within_window_w :
    (toggle exHabit "2025-01-01" 0).xpChange = 15 ∧
    (toggle (toggle exHabit "2025-01-01" 0).habit "2025-01-01" 1000).xpChange = -15 ∧
    "2025-01-01" ∉ (toggle (toggle exHabit "2025-01-01" 0).habit "2025-01-01" 1000).habit.completedDates ∧
    (toggle (toggle exHabit "2025-01-01" 0).habit "2025-01-01" 1000).habit.xpGrantedDates.find?
      (fun e => e.date == "2025-01-01") = none ∧
    (applyToggleXp (applyToggleXp exUser (toggle exHabit "2025-01-01" 0).xpChange).1
      (toggle (toggle exHabit "2025-01-01" 0).habit "2025-01-01" 1000).xpChange).1.platformXp
      = exUser.platformXp :=
  toggle_undo_within_window exHabit "2025-01-01" 0 1000 exUser
    (by decide) (by decide) (by decide) (by decide)

/-- C4: unchecking a date whose grant is at least 60 seconds old signals a
    zero delta, removes the date from `completedDates`, retains the grant
    record unchanged, and a subsequent re-check of the date also signals a
    zero delta. -/
theorem toggle_late_uncheck_no_refund (habit : Habit) (date : String) (t t' : Int)
    (entry : XpGrant)
    (hcount : habit.completedDates.count date = 1)
    (h2 : habit.xpGrantedDates.find? (fun e => e.date == date) = some entry)
    (h3 : ¬ (t - entry.grantedAt < UNDO_WINDOW_MS)) :
    (toggle habit date t).xpChange = 0 ∧
    date ∉ (toggle habit date t).habit.completedDates ∧
    (toggle habit date t).habit.xpGrantedDates = habit.xpGrantedDates ∧
    (toggle (toggle habit date t).habit date t').xpChange = 0 ∧
    (toggle (toggle habit date t).habit date t').habit.xpGrantedDates = habit.xpGrantedDates := by
  have hmem : date ∈ habit.completedDates := by
    by_contra hn
    rw [List.count_eq_zero.mpr hn] at hcount
    exact absurd hcount (by norm_num)
  have e1 := @toggle_uncheck_late habit date entry t hmem h2 h3
  have hnotmem : date ∉ sortDates (habit.completedDates.erase date) := by
    intro hc
    have hzero : (habit.completedDates.erase date).count date = 0 := by
      rw [List.count_erase_self, hcount]
    rw [List.count_eq_zero] at hzero
    exact hzero (mem_sortDates.mp hc)
  have e2 := @toggle_recheck_granted
    { habit with
      completedDates := sortDates (habit.completedDates.erase date),
      currentStreak := ((sortDates (habit.completedDates.erase date)).length : Int) }
    date entry t' hnotmem h2
  refine ⟨?_, ?_, ?_, ?_, ?_⟩
  · simp only [e1]
  · simp only [e1]
    exact hnotmem
  · simp only [e1]
  · rw [e1, e2]
  · rw [e1, e2]

/-- Witness for C4 on a habit completed at t=0, unchecked at t=70s,
    re-checked at t=71s. -/
theorem toggle_late_uncheck_no_refund_w :
    (toggle exHabitGranted "2025-01-01" 70000).xpChange = 0 ∧
    "2025-01-01" ∉ (toggle exHabitGranted "2025-01-01" 70000).habit.completedDates ∧
    (toggle exHabitGranted "2025-01-01" 70000).habit.xpGrantedDates
      = exHabitGranted.xpGrantedDates ∧
    (toggle (toggle exHabitGranted "2025-01-01" 70000).habit "2025-01-01" 71000).xpChange = 0 ∧
    (toggle (toggle exHabitGranted "2025-01-01" 70000).habit "2025-01-01" 71000).habit.xpGrantedDates
      = exHabitGranted.xpGrantedDates :=
  toggle_late_uncheck_no_refund exHabitGranted "2025-01-01" 70000 71000
    { date := "2025-01-01", grantedAt := 0 } (by decide) (by decide) (by decide)

/-- C10: a toggle whose computed delta is zero leaves the user document
    entirely unchanged, and the user is not re-saved. -/
theorem toggle_zero_delta_user_unchanged (habit : Habit) (date : String) (now : Int) (u : User)
    (h : (toggle habit date now).xpChange = 0) :
    applyToggleXp u (toggle habit date now).xpChange = (u, false) := by
  rw [h]
  simp [applyToggleXp]

/-- Witness for C10: a late uncheck has delta 0 and leaves the user untouched. -/
theorem toggle_zero_delta_user_unchanged_w :
    applyToggleXp exUser (toggle exHabitGranted "2025-01-01" 70000).xpChange
      = (exUser, false) :=
  toggle_zero_delta_user_unchanged exHabitGranted "2025-01-01" 70000 exUser (by decide)

/-- `x ≤ jsOr x 1`. -/
theorem le_jsOr_one (x : Int) : x ≤ jsOr x 1 := by
  unfold jsOr
  split <;> omega

/-- C5: every XP-changing operation floors `platformXp` at 0: a habit toggle
    with a non-zero delta (with or without the Hell Week multiplier), the
    Hell Week surrender and fail penalties, and the battle surrender penalty. -/
theorem xp_floor_nonneg (u : User) (d : Int) (hd : d ≠ 0) :
    0 ≤ (applyToggleXp u d).1.platformXp ∧
    0 ≤ (hellWeekSurrender u).platformXp ∧
    0 ≤ (hellWeekFail u).platformXp ∧
    0 ≤ (surrenderXpPenalty u).platformXp := by
  refine ⟨?_, ?_, ?_, ?_⟩
  · rw [applyToggleXp_platformXp u d hd]
    exact le_max_left 0 _
  · simp only [hellWeekSurrender]
    exact le_max_left 0 _
  · simp only [hellWeekFail]
    exact le_max_left 0 _
  · simp only [surrenderXpPenalty]
    exact le_max_left 0 _

/-- Witness for C5 with a large negative delta on a small balance. -/
theorem xp_floor_nonneg_w :
    0 ≤ (applyToggleXp exUser (-1000)).1.platformXp ∧
    0 ≤ (hellWeekSurrender exUser).platformXp ∧
    0 ≤ (hellWeekFail exUser).platformXp ∧
    0 ≤ (surrenderXpPenalty exUser).platformXp :=
  xp_floor_nonneg exUser (-1000) (by norm_num)

/-- C2 (amended): the main server's recomputes of level from XP — habit
    toggle, get-user self-heal, and Hell Week complete — never decrease the
    stored level; the serverless variant's get-user instead overwrites the
    level with the derived one, which can be lower. -/
theorem level_never_decreases_main (u : User) (d : Int) :
    u.level ≤ ((applyToggleXp u d).1).level ∧
    u.level ≤ (getUserSelfHeal u).level ∧
    u.level ≤ (hellWeekComplete u).level ∧
    (getUserSelfHealServerless u).level = calculateLevel (jsOr u.platformXp 0) := by
  refine ⟨?_, ?_, ?_, ?_⟩
  · by_cases hd : d = 0
    · simp [applyToggleXp, hd]
    · rw [applyToggleXp_level u d hd]
      exact le_trans (le_jsOr_one u.level) (le_max_left _ _)
  · simp only [getUserSelfHeal]
    split
    · next h => exact le_of_lt (lt_of_le_of_lt (le_jsOr_one u.level) h)
    · exact le_refl _
  · simp only [hellWeekComplete]
    exact le_trans (le_jsOr_one u.level) (le_max_left _ _)
  · simp only [getUserSelfHealServerless]
    split
    · rfl
    · next h => exact not_not.mp h

/-- C2 counterexample: the serverless get-user level sync lowers a stored
    level 5 to the derived level 1 when the user has 0 XP. -/
theorem get_user_serverless_lowers_level :
    (getUserSelfHealServerless exUserLvl5).level < exUserLvl5.level := by decide

/-- C6 (amended): the main server's Hell Week start rejects when already
    active or when the level is below 4, and otherwise activates Hell Week
    with target date 7 days after the start time. -/
theorem hell_week_start_rules (u : User) (now : Int) :
    (u.hellWeek.isActive = true → hellWeekStart u now = .error "Already in hell") ∧
    (u.hellWeek.isActive = false → jsOr u.level 1 < 4 →
      hellWeekStart u now = .error "Hell Week requires Level 4") ∧
    (u.hellWeek.isActive = false → 4 ≤ jsOr u.level 1 →
      hellWeekStart u now = .ok { u with hellWeek :=
        { isActive := true, startDate := some now,
          targetDate := some (now + 7 * 24 * 60 * 60 * 1000) } }) := by
  refine ⟨?_, ?_, ?_⟩
  · intro h
    simp [hellWeekStart, h]
  · intro h hl
    simp [hellWeekStart, h, hl]
  · intro h hl
    simp only [hellWeekStart, h, Bool.false_eq_true, if_false]
    rw [if_neg (not_lt.mpr hl)]

/-- Witness for C6 at a level-5 user starting at t=0. -/
theorem hell_week_start_rules_w :
    hellWeekStart exUserLvl5 0 = .ok { exUserLvl5 with hellWeek :=
      { isActive := true, startDate := some 0, targetDate := some 604800000 } } :=
  (hell_week_start_rules exUserLvl5 0).2.2 rfl (by decide)

/-- C6 counterexample: the serverless variant's Hell Week start succeeds for
    an inactive level-1 user, with no level precondition. -/
theorem hell_week_start_serverless_skips_level_check :
    exUserLvl1.level < 4 ∧ exUserLvl1.hellWeek.isActive = false ∧
    hellWeekStartServerless exUserLvl1 0 = .ok { exUserLvl1 with hellWeek :=
      { isActive := true, startDate := some 0, targetDate := some 604800000 } } :=
  ⟨by decide, rfl, rfl⟩

/-- C7: surrendering a battle marks both linked records `completed`, sets
    `battleWinner` on both to the surrendering record's partner (the
    non-surrendering participant), and deducts 100 XP from the surrendering
    user, floored at 0. -/
theorem battle_surrender_rules (my opp : Habit) (u : User) (p : String)
    (hact : my.battleStatus = "active") (hp : my.partnerId = some p) :
    (surrenderBattle my (some opp) (some u)).1.battleStatus = "completed" ∧
    (surrenderBattle my (some opp) (some u)).1.battleWinner = some p ∧
    (surrenderBattle my (some opp) (some u)).2.1 =
      some { opp with battleStatus := "completed", battleWinner := some p } ∧
    (surrenderBattle my (some opp) (some u)).2.2 =
      some { u with platformXp := max 0 (u.platformXp - 100) } := by
  refine ⟨rfl, ?_, ?_, ?_⟩
  · simp [surrenderBattle, hp]
  · simp [surrenderBattle, hp]
  · simp [surrenderBattle, surrenderXpPenalty, jsOr_zero]

/-- Witness for C7 on a concrete active battle pair. -/
theorem battle_surrender_rules_w :
    (surrenderBattle exBattleMine (some exBattleTheirs) (some exUser)).1.battleStatus = "completed" ∧
    (surrenderBattle exBattleMine (some exBattleTheirs) (some exUser)).1.battleWinner = some "u2" ∧
    (surrenderBattle exBattleMine (some exBattleTheirs) (some exUser)).2.1 =
      some { exBattleTheirs with battleStatus := "completed", battleWinner := some "u2" } ∧
    (surrenderBattle exBattleMine (some exBattleTheirs) (some exUser)).2.2 =
      some { exUser with platformXp := max 0 (exUser.platformXp - 100) } :=
  battle_surrender_rules exBattleMine exBattleTheirs exUser "u2" rfl rfl

/-- C1 (amended): creating a habit with a partner produces exactly two records
    sharing the freshly allocated group id: the creator record is `battle` /
    `waiting` and hidden in the main server (the serverless variant leaves it
    at the schema default, visible), and the invitee record is `battle` /
    `pending`, hidden, with `partnerId` pointing back at the creator. -/
theorem create_battle_two_records (input : HabitInput) (p gid : String) (dur : Option Int) :
    (∃ creator invitee, createHabit input (some p) dur gid = [creator, invitee] ∧
      creator.userId = input.userId ∧ creator.type = "battle" ∧
      creator.battleStatus = "waiting" ∧ creator.isVisible = false ∧
      creator.sharedGroupId = some gid ∧ creator.partnerId = some p ∧
      invitee.userId = p ∧ invitee.type = "battle" ∧
      invitee.battleStatus = "pending" ∧ invitee.isVisible = false ∧
      invitee.sharedGroupId = some gid ∧ invitee.partnerId = some input.userId) ∧
    (∃ creator invitee, createHabitServerless input (some p) dur gid = [creator, invitee] ∧
      creator.battleStatus = "waiting" ∧ creator.isVisible = true ∧
      invitee.battleStatus = "pending" ∧ invitee.isVisible = false) :=
  ⟨⟨_, _, rfl, rfl, rfl, rfl, rfl, rfl, rfl, rfl, rfl, rfl, rfl, rfl, rfl⟩,
   ⟨_, _, rfl, rfl, rfl, rfl, rfl⟩⟩

/-- First accept resolves to appending the missing edge on each side. -/
theorem handleRequest_accept_new (user requester : User) (userId requesterId : String)
    (hu : requesterId ∉ user.friends) (hr : userId ∉ requester.friends) :
    handleRequest user userId requester requesterId "accept" =
      ({ user with
           friendRequests := user.friendRequests.filter (fun r => !(r.fromId == requesterId)),
           friends := user.friends ++ [requesterId] },
       { requester with friends := requester.friends ++ [userId] }) := by
  simp [handleRequest, hu, hr]

/-- C9: a second friend request from the same sender before resolution is
    rejected as a duplicate; accepting adds the friendship edge on both sides
    exactly once, and a second accept invocation changes neither friends list. -/
theorem friend_request_flow (sender target user requester : User)
    (senderId targetId userId requesterId : String)
    (hne : senderId ≠ targetId) (hnf : targetId ∉ sender.friends)
    (hdup : (target.friendRequests.find? (fun r => r.fromId == senderId)).isSome = true)
    (hu : requesterId ∉ user.friends) (hr : userId ∉ requester.friends) :
    addFriend sender senderId target targetId = .error "Request already sent." ∧
    (handleRequest user userId requester requesterId "accept").1.friends.count requesterId = 1 ∧
    (handleRequest user userId requester requesterId "accept").2.friends.count userId = 1 ∧
    (handleRequest (handleRequest user userId requester requesterId "accept").1 userId
        (handleRequest user userId requester requesterId "accept").2 requesterId "accept").1.friends
      = (handleRequest user userId requester requesterId "accept").1.friends ∧
    (handleRequest (handleRequest user userId requester requesterId "accept").1 userId
        (handleRequest user userId requester requesterId "accept").2 requesterId "accept").2.friends
      = (handleRequest user userId requester requesterId "accept").2.friends := by
  have e1 := handleRequest_accept_new user requester userId requesterId hu hr
  refine ⟨?_, ?_, ?_, ?_, ?_⟩
  · unfold addFriend
    rw [if_neg hne, if_neg hnf]
    obtain ⟨r, hfind⟩ := Option.isSome_iff_exists.mp hdup
    rw [hfind]
  · rw [e1]
    simp [List.count_append, List.count_eq_zero.mpr hu]
  · rw [e1]
    simp [List.count_append, List.count_eq_zero.mpr hr]
  · rw [e1]
    simp [handleRequest]
  · rw [e1]
    simp [handleRequest]

/-- Witness for C9 on concrete users u3 (sender/requester) and u4. -/
theorem friend_request_flow_w :
    addFriend exUser "u3"
        { exUser with friendRequests := [{ fromId := "u3", status := "pending" }] } "u4"
      = .error "Request already sent." ∧
    (handleRequest exUser "u4" exUserLvl5 "u3" "accept").1.friends.count "u3" = 1 ∧
    (handleRequest exUser "u4" exUserLvl5 "u3" "accept").2.friends.count "u4" = 1 ∧
    (handleRequest (handleRequest exUser "u4" exUserLvl5 "u3" "accept").1 "u4"
        (handleRequest exUser "u4" exUserLvl5 "u3" "accept").2 "u3" "accept").1.friends
      = (handleRequest exUser "u4" exUserLvl5 "u3" "accept").1.friends ∧
    (handleRequest (handleRequest exUser "u4" exUserLvl5 "u3" "accept").1 "u4"
        (handleRequest exUser "u4" exUserLvl5 "u3" "accept").2 "u3" "accept").2.friends
      = (handleRequest exUser "u4" exUserLvl5 "u3" "accept").2.friends :=
  friend_request_flow exUser
    { exUser with friendRequests := [{ fromId := "u3", status := "pending" }] }
    exUser exUserLvl5 "u3" "u4" "u4" "u3"
    (by decide) (by decide) (by decide) (by decide) (by decide)

/-- C1 counterexample: on a concrete create-habit request with a partner, the
    main server creates the creator record with `isVisible = false`, not
    `true` as claimed. -/
theorem create_battle_creator_hidden :
    createHabit { userId := "u1", name := "pushups" } (some "u2") none "g1" =
      [ { userId := "u1", name := "pushups", partnerId := some "u2",
          sharedGroupId := some "g1", type := "battle", battleStatus := "waiting",
          isVisible := false, battleDuration := 7, completedDates := [],
          xpGrantedDates := [], currentStreak := 0, battleWinner := none },
        { userId := "u2", name := "pushups", partnerId := some "u1",
          sharedGroupId := some "g1", type := "battle", battleStatus := "pending",
          isVisible := false, battleDuration := 7, completedDates := [],
          xpGrantedDates := [], currentStreak := 0, battleWinner := none } ] := rfl

end Monster
